import Mathlib

/-!
Shallow embedding of the bepass core (package `core`, `src/cmd/core/core.go`)
and of the WebSocket tunnel multiplexer (package `transport`, same source
file), with theorems settling the frozen claims about chunk-configuration
wiring, the tunnel supervisor, framing, channel-id allocation, the signal
handler, shutdown, and DoH construction.

Machine integers are modelled as `Nat` with explicit `% 2 ^ w` where the Go
code performs wrapping arithmetic (`uint16`); byte strings are `List Nat`
with each element `< 256`; Go `chan` values are modelled by opaque numeric
handles allocated from a counter; `time.Now()` is an explicit clock
parameter in seconds.
-/

namespace Core

/-- The relevant fields of `core.Config` (`core.go`).  Go `[2]int` ranges
become `Int × Int`; strings that only feed prefix tests become `List Char`. -/
structure Config where
  tlsHeaderLength : Int
  workerEnabled : Bool
  workerDNSOnly : Bool
  enableDNSFragmentation : Bool
  remoteDNSAddr : List Char
  chunksLengthBeforeSni : Int × Int
  sniChunksLength : Int × Int
  chunksLengthAfterSni : Int × Int
  delayBetweenChunks : Int × Int
  deriving DecidableEq, Repr

/-- The fields of `server.ChunkConfig` as populated by `RunServer`
(`core.go` lines 78–83).  The composite literal there names exactly these
four fields; there is no field for an SNI-region chunk range. -/
structure ChunkConfig where
  beforeSniLength : Int × Int
  afterSniLength : Int × Int
  delay : Int × Int
  tlsHeaderLength : Int
  deriving DecidableEq, Repr

/-- Construction by `RunServer` of the chunk configuration handed to the
server, transcribed from `core.go` lines 78–83:
`BeforeSniLength: config.SniChunksLength`,
`AfterSniLength: config.ChunksLengthAfterSni`,
`Delay: config.DelayBetweenChunks`,
`TLSHeaderLength: config.TLSHeaderLength`. -/
def runServerChunkConfig (config : Config) : ChunkConfig :=
  { beforeSniLength := config.sniChunksLength
    afterSniLength := config.chunksLengthAfterSni
    delay := config.delayBetweenChunks
    tlsHeaderLength := config.tlsHeaderLength }

/-- The argument of `doh.WithDNSFragmentation` in `RunServer`
(`core.go` line 70):
`(config.WorkerEnabled && config.WorkerDNSOnly) || config.EnableDNSFragmentation`. -/
def dohFragmentationFlag (config : Config) : Bool :=
  (config.workerEnabled && config.workerDNSOnly) || config.enableDNSFragmentation

/-- Test `strings.HasPrefix(config.RemoteDNSAddr, "https://")` from
`core.go` line 67, on the `List Char` model of the address. -/
def remoteDNSAddrIsHTTPS (config : Config) : Bool :=
  List.isPrefixOf "https://".toList config.remoteDNSAddr

/-- DoH-client construction in `RunServer` (`core.go` lines 67–76): a client
is built only when `RemoteDNSAddr` starts with `https://`, and then its
fragmentation option is `dohFragmentationFlag`; otherwise (`DNSCrypt`
branch) no DoH client is constructed (`none`). -/
def runServerDoHFragmentation (config : Config) : Option Bool :=
  if remoteDNSAddrIsHTTPS config then some (dohFragmentationFlag config)
  else none

/-- Signals the interrupt goroutine subscribes to (`core.go` line 108):
`os.Interrupt` (SIGINT) and `syscall.SIGTERM`. -/
inductive Signal where
  | interrupt
  | sigterm
  deriving DecidableEq, Repr

/-- Observable host-process actions of the interrupt goroutine. -/
inductive HostAction where
  | callShutDown
  | exitProcess (code : Nat)
  deriving DecidableEq, Repr

/-- An installed signal handler: which signals it is notified of and the
actions it performs, in order, once a signal arrives. -/
structure SignalHandler where
  signals : List Signal
  onSignal : List HostAction
  deriving DecidableEq, Repr

/-- Interrupt handling in `RunServer` (`core.go` lines 106–114): when
`captureCTRLC` is set, a goroutine is registered for `os.Interrupt` and
`syscall.SIGTERM`; on a signal it runs `_ = ShutDown()` and then
`os.Exit(0)`.  When `captureCTRLC` is unset no handler is installed. -/
def runServerSignalHandler (captureCTRLC : Bool) : Option SignalHandler :=
  if captureCTRLC then
    some { signals := [.interrupt, .sigterm]
           onSignal := [.callShutDown, .exitProcess 0] }
  else none

/-- Exit codes requested by a handler, in order of occurrence. -/
def handlerExitCodes (h : SignalHandler) : List Nat :=
  h.onSignal.filterMap fun a =>
    match a with
    | .exitProcess code => some code
    | _ => none

/-- Observable state of the process-wide server: whether the SOCKS listener
is open, and for each tunnel endpoint whether its tunnel is open. -/
structure ServerState where
  listenerOpen : Bool
  tunnels : List (String × Bool)
  deriving DecidableEq, Repr

/-- Modelled from the spec: `bepass/socks5.(*Server).Shutdown` is repository
code that is not under `src/`; per the spec, the process-wide instance has
a `shutdown()` that closes the listener and all active tunnels. -/
def socks5ServerShutdown (s : ServerState) : ServerState :=
  { listenerOpen := false
    tunnels := s.tunnels.map fun p => (p.1, false) }

/-- Function `core.ShutDown` (`core.go` lines 128–130): it delegates to
`s5.Shutdown()` on the process-wide SOCKS server instance. -/
def shutDown (s : ServerState) : ServerState :=
  socks5ServerShutdown s

end Core

namespace Transport

/-- Type `transport.UDPPacket`: a channel id (`uint16`, modelled as a `Nat`
kept below `2 ^ 16`) and a payload. -/
structure UDPPacket where
  channel : Nat
  data : List Nat
  deriving DecidableEq, Repr

/-- Type `transport.EstablishedTunnel`: the shared tunnel write channel
(an opaque handle standing for the Go `chan UDPPacket`), the registry of
per-channel bind write channels (`map[uint16]chan UDPPacket`, an
association list whose first matching key wins), and the `uint16`
channel-index counter. -/
structure EstablishedTunnel where
  tunnelWriteChannel : Nat
  bindWriteChannels : List (Nat × Nat)
  channelIndex : Nat
  deriving DecidableEq, Repr

/-- Configuration fields of `transport.WSTunnel` used by the reader and
writer: `ReadTimeout` and `WriteTimeout` in seconds, `LinkIdleTimeout`
(an `int64` of seconds), and `ShortClientID` as its byte string. -/
structure WSTunnelConfig where
  readTimeout : Nat
  writeTimeout : Nat
  linkIdleTimeout : Int
  shortClientID : List Nat
  deriving DecidableEq, Repr

/-- Mutable state of a `transport.WSTunnel`: the `EstablishedTunnels`
map keyed by endpoint, plus a counter allocating fresh handles for
`make(chan UDPPacket)`. -/
structure WSTunnelState where
  establishedTunnels : List (String × EstablishedTunnel)
  nextChanHandle : Nat
  deriving DecidableEq, Repr

/-- Lookup `w.EstablishedTunnels[tunnelEndpoint]` on the association-list
model of the Go map. -/
def findTunnel : List (String × EstablishedTunnel) → String → Option EstablishedTunnel
  | [], _ => none
  | (k, v) :: rest, ep => if k = ep then some v else findTunnel rest ep

/-- Replacement of the entry for a key in the association-list model of the
Go map (assignment to an existing key). -/
def updateTunnel : List (String × EstablishedTunnel) → String → EstablishedTunnel →
    List (String × EstablishedTunnel)
  | [], _, _ => []
  | (k, v) :: rest, ep, t =>
      if k = ep then (k, t) :: updateTunnel rest ep t
      else (k, v) :: updateTunnel rest ep t

/-- Result of one call to `PersistentDial`: the updated tunnel registry
state and the three returned values `(chan UDPPacket, uint16, error)`. -/
structure DialResult where
  state : WSTunnelState
  tunnelWriteChannel : Nat
  channelId : Nat
  err : Option String
  deriving DecidableEq, Repr

/-- Registration part of `transport.(*WSTunnel).PersistentDial`
(`core.go` lines 192–207 and 316).  When the endpoint already has a tunnel:
`tunnel.channelIndex = tunnel.channelIndex + 1` (a `uint16` increment, so
taken `% 2 ^ 16`), the bind write channel is registered under the new
index, and `(tunnel.tunnelWriteChannel, tunnel.channelIndex, nil)` is
returned.  When the endpoint is absent: a fresh tunnel write channel is
made, a tunnel record with `channelIndex` 1 is stored, the bind write
channel is registered under id 1, the supervisor goroutine is started, and
`(tunnelWriteChannel, 1, nil)` is returned. -/
def persistentDial (w : WSTunnelState) (tunnelEndpoint : String) (bindWriteChannel : Nat) :
    DialResult :=
  match findTunnel w.establishedTunnels tunnelEndpoint with
  | some tunnel =>
      let idx := (tunnel.channelIndex + 1) % 65536
      let tunnel2 : EstablishedTunnel :=
        { tunnel with
            channelIndex := idx
            bindWriteChannels := (idx, bindWriteChannel) :: tunnel.bindWriteChannels }
      { state := { w with
                     establishedTunnels := updateTunnel w.establishedTunnels tunnelEndpoint tunnel2 }
        tunnelWriteChannel := tunnel.tunnelWriteChannel
        channelId := idx
        err := none }
  | none =>
      let tunnelWriteChannel := w.nextChanHandle
      let tunnel : EstablishedTunnel :=
        { tunnelWriteChannel := tunnelWriteChannel
          bindWriteChannels := [(1, bindWriteChannel)]
          channelIndex := 1 }
      { state := { establishedTunnels := (tunnelEndpoint, tunnel) :: w.establishedTunnels
                   nextChanHandle := w.nextChanHandle + 1 }
        tunnelWriteChannel := tunnelWriteChannel
        channelId := 1
        err := none }

/-- Empty tunnel registry at process start. -/
def emptyState : WSTunnelState :=
  { establishedTunnels := [], nextChanHandle := 0 }

/-- Registry state after `n` successive attaches (`PersistentDial` calls)
for one endpoint and one bind write channel, starting from the empty
registry. -/
def attachState (ep : String) (bindQ : Nat) : Nat → WSTunnelState
  | 0 => emptyState
  | n + 1 => (persistentDial (attachState ep bindQ n) ep bindQ).state

/-- Channel id returned by the `n`-th attach (`n ≥ 1`) for one endpoint. -/
def channelIdAtAttach (ep : String) (bindQ : Nat) (n : Nat) : Nat :=
  (persistentDial (attachState ep bindQ (n - 1)) ep bindQ).channelId

/-- Encoding `binary.BigEndian.PutUint16(bs, v)` (`core.go` line 249):
`bs[0] = byte(v >> 8)`, `bs[1] = byte(v)`; the `byte` conversions truncate
modulo 256. -/
def goPutUint16 (v : Nat) : List Nat :=
  [(v >>> 8) % 256, v % 256]

/-- Decoding `binary.BigEndian.Uint16(b)` (`core.go` line 299):
`uint16(b[1]) | uint16(b[0])<<8`. -/
def goBigEndianUint16 (b0 b1 : Nat) : Nat :=
  (b0 <<< 8) ||| b1

/-- Frame built by the tunnel writer (`core.go` line 251):
`append([]byte(w.ShortClientID), append(bs, rt.Data...)...)` where `bs`
holds the big-endian channel id. -/
def writerEmit (shortClientID : List Nat) (rt : UDPPacket) : List Nat :=
  shortClientID ++ (goPutUint16 rt.channel ++ rt.data)

/-- One iteration of the tunnel writer on a packet taken from the tunnel
write channel (`core.go` lines 242–256): it sets a write deadline of
`time.Now().Add(WriteTimeout seconds)` and writes the frame.  The clock
`now` is in seconds; the result is the deadline and the emitted bytes. -/
def writerStep (w : WSTunnelConfig) (now : Nat) (rt : UDPPacket) : Nat × List Nat :=
  (now + w.writeTimeout, writerEmit w.shortClientID rt)

/-- Big-endian 2-byte encoding as the spec words it, for a channel id
below `2 ^ 16`: high byte then low byte. -/
def specUint16BE (c : Nat) : List Nat :=
  [c / 256, c % 256]

/-- Observable effect of the tunnel reader on one inbound WebSocket
message. -/
inductive ReaderAction where
  | ignored
  | dropped
  | enqueued (bindQueue : Nat) (pkt : UDPPacket)
  deriving DecidableEq, Repr

/-- Lookup `bindWriteChannels[pkt.Channel]` on the association-list model
of the Go map. -/
def lookupBindChannel : List (Nat × Nat) → Nat → Option Nat
  | [], _ => none
  | (k, q) :: rest, c => if k = c then some q else lookupBindChannel rest c

/-- One iteration of the tunnel reader on a successfully read message of
`n` bytes (`core.go` lines 282–309): if `n < 2` the message is skipped
(`continue`); otherwise the channel id is `binary.BigEndian.Uint16` of the
first two bytes, the payload is `rawPacket[2:n]`, and the packet is sent on
the registered bind write channel when one exists, else silently
discarded. -/
def readerStep (binds : List (Nat × Nat)) (msg : List Nat) : ReaderAction :=
  if msg.length < 2 then .ignored
  else
    let channelID := goBigEndianUint16 (msg.getD 0 0) (msg.getD 1 0)
    let pkt : UDPPacket := { channel := channelID, data := msg.drop 2 }
    match lookupBindChannel binds pkt.channel with
    | some udpBindWriteChan => .enqueued udpBindWriteChan pkt
    | none => .dropped

/-- Reader behaviour as the spec words it: ignore messages shorter than
2 bytes; otherwise the channel id is the big-endian `uint16` of the first
two bytes (`256 * b0 + b1`), the payload is the rest, and the packet goes
to the registered bind queue when present, else is dropped silently. -/
def specReaderStep (binds : List (Nat × Nat)) (msg : List Nat) : ReaderAction :=
  if msg.length < 2 then .ignored
  else
    let channelID := 256 * msg.getD 0 0 + msg.getD 1 0
    let pkt : UDPPacket := { channel := channelID, data := msg.drop 2 }
    match lookupBindChannel binds pkt.channel with
    | some udpBindWriteChan => .enqueued udpBindWriteChan pkt
    | none => .dropped

/-- Deadline-setting and I/O calls issued on the tunnel WebSocket
connection, in program order. -/
inductive IOAction where
  | setReadDeadline (deadline : Nat)
  | setWriteDeadline (deadline : Nat)
  | readMessage
  | writeFrame (frame : List Nat)
  deriving DecidableEq, Repr

/-- Action trace of the writer goroutine (`core.go` lines 230–259) while it
consumes the given packets: for each packet it first calls
`conn.SetWriteDeadline(now + WriteTimeout seconds)` and then writes the
frame. -/
def writerActions (w : WSTunnelConfig) (now : Nat) : List UDPPacket → List IOAction
  | [] => []
  | rt :: rest =>
      .setWriteDeadline (now + w.writeTimeout) ::
        .writeFrame (writerEmit w.shortClientID rt) :: writerActions w now rest

/-- Action trace of the reader (`core.go` lines 262–312) for one WebSocket
connection over which the given messages arrive: it calls
`conn.SetReadDeadline(now + ReadTimeout seconds)` once, before the read
loop, and then performs one `conn.Read` per message with no further
deadline calls. -/
def readerActions (w : WSTunnelConfig) (now : Nat) (msgs : List (List Nat)) : List IOAction :=
  .setReadDeadline (now + w.readTimeout) :: msgs.map fun _ => .readMessage

/-- Recognize a read call in a trace. -/
def isReadCall : IOAction → Bool
  | .readMessage => true
  | _ => false

/-- Recognize a write call in a trace. -/
def isWriteCall : IOAction → Bool
  | .writeFrame _ => true
  | _ => false

/-- Recognize a read-deadline update in a trace. -/
def isSetReadDeadline : IOAction → Bool
  | .setReadDeadline _ => true
  | _ => false

/-- Recognize a write-deadline update in a trace. -/
def isSetWriteDeadline : IOAction → Bool
  | .setWriteDeadline _ => true
  | _ => false

/-- Auxiliary walk for `eachCallPreceded`, carrying the previous action. -/
def chainCallPreceded (isSet isCall : IOAction → Bool) :
    Option IOAction → List IOAction → Bool
  | _, [] => true
  | prev, a :: rest =>
      (!(isCall a) ||
        (match prev with
         | some p => isSet p
         | none => false)) &&
      chainCallPreceded isSet isCall (some a) rest

/-- Check that, in a trace, every action satisfying `isCall` is immediately
preceded by an action satisfying `isSet`. -/
def eachCallPreceded (isSet isCall : IOAction → Bool) (trace : List IOAction) : Bool :=
  chainCallPreceded isSet isCall none trace

/-- One observed iteration of the supervisor `for` loop (`core.go`
lines 216–313): either the WebSocket dial fails (the loop executes
`continue`), or a dial succeeds and the connection later terminates, the
recorded idle gap `time.Now().Unix() − lastActivityStamp` at that moment
being attached as data. -/
inductive LoopEvent where
  | dialFail
  | session (idleGapAtError : Int)
  deriving DecidableEq, Repr

/-- Outcome of running the supervisor goroutine over a finite prefix of
loop iterations. -/
inductive SupervisorOutcome where
  | entryDropped
  | stillRunning
  deriving DecidableEq, Repr

/-- Body of the supervisor `for` loop (`core.go` lines 216–313): a dial
error executes `continue`; after a served connection terminates, control
falls through to the top of the loop and redials.  No statement in the
loop returns from the goroutine, so no iteration can reach the deferred
`delete` of the endpoint entry. -/
def supervisorLoop : List LoopEvent → SupervisorOutcome
  | [] => .stillRunning
  | .dialFail :: rest => supervisorLoop rest
  | .session _ :: rest => supervisorLoop rest

/-- Supervisor goroutine of `PersistentDial` (`core.go` lines 209–314):
`lastActivityStamp` is initialized just before the goroutine starts; the
goroutine checks `time.Now().Unix() − lastActivityStamp > LinkIdleTimeout`
once, before the first dial — the only `return` that triggers the deferred
`delete` — and then enters the `for` loop.  `initialGap` is the clock
advance between the stamp initialization and that single check. -/
def supervisorRun (linkIdleTimeout : Int) (initialGap : Int) (events : List LoopEvent) :
    SupervisorOutcome :=
  if initialGap > linkIdleTimeout then .entryDropped
  else supervisorLoop events

end Transport

namespace Core

/-- Concrete configuration exercising the chunk-range wiring: the three
ranges are pairwise distinct so that a mix-up is observable. -/
def cfgChunksA : Config :=
  { tlsHeaderLength := 5
    workerEnabled := false
    workerDNSOnly := false
    enableDNSFragmentation := false
    remoteDNSAddr := []
    chunksLengthBeforeSni := (1, 3)
    sniChunksLength := (50, 60)
    chunksLengthAfterSni := (10, 20)
    delayBetweenChunks := (0, 5) }

/-- Same configuration as `cfgChunksA` except for `ChunksLengthBeforeSni`. -/
def cfgChunksB : Config :=
  { cfgChunksA with chunksLengthBeforeSni := (7, 8) }

/-- Concrete configuration with the worker relaying DNS only and the
DNS-fragmentation flag off, against a DoH resolver address. -/
def cfgWorkerDNSOnly : Config :=
  { tlsHeaderLength := 5
    workerEnabled := true
    workerDNSOnly := true
    enableDNSFragmentation := false
    remoteDNSAddr := "https://dns.example/dns-query".toList
    chunksLengthBeforeSni := (1, 5)
    sniChunksLength := (1, 5)
    chunksLengthAfterSni := (1, 5)
    delayBetweenChunks := (0, 10) }

/-- Concrete configuration with the DNS-fragmentation flag on and the
worker disabled, against a DoH resolver address. -/
def cfgDNSFrag : Config :=
  { tlsHeaderLength := 5
    workerEnabled := false
    workerDNSOnly := false
    enableDNSFragmentation := true
    remoteDNSAddr := "https://1.1.1.1/dns-query".toList
    chunksLengthBeforeSni := (1, 5)
    sniChunksLength := (1, 5)
    chunksLengthAfterSni := (1, 5)
    delayBetweenChunks := (0, 10) }

end Core

namespace Transport

/-- Helper: the Go big-endian `PutUint16` encoding agrees with the
high-byte/low-byte description for values that fit in a `uint16`. -/
theorem goPutUint16_eq_spec (c : Nat) (h : c < 65536) :
    goPutUint16 c = specUint16BE c := by
  unfold goPutUint16 specUint16BE
  have hs : c >>> 8 = c / 256 := by
    rw [Nat.shiftRight_eq_div_pow]
  have hlt : c / 256 < 256 := by omega
  rw [hs, Nat.mod_eq_of_lt hlt]

/-- Helper: the Go big-endian `Uint16` decoding of two bytes is
`256 * b0 + b1`. -/
theorem goBigEndianUint16_eq_add (b0 b1 : Nat) (h1 : b1 < 256) :
    goBigEndianUint16 b0 b1 = 256 * b0 + b1 := by
  unfold goBigEndianUint16
  have h1p : b1 < 2 ^ 8 := by omega
  calc b0 <<< 8 ||| b1 = 2 ^ 8 * b0 ||| b1 := by
        rw [Nat.shiftLeft_eq, Nat.mul_comm]
    _ = 2 ^ 8 * b0 + b1 := (Nat.mul_add_lt_is_or h1p b0).symm
    _ = 256 * b0 + b1 := by norm_num

/-- Helper: looking up a key after replacing its entry returns the new
value precisely when the key was present. -/
theorem findTunnel_updateTunnel (ts : List (String × EstablishedTunnel)) (ep : String)
    (t : EstablishedTunnel) :
    findTunnel (updateTunnel ts ep t) ep = (findTunnel ts ep).map fun _ => t := by
  induction ts with
  | nil => rfl
  | cons p rest ih =>
      obtain ⟨k, v⟩ := p
      by_cases hk : k = ep
      · simp [updateTunnel, findTunnel, hk]
      · simp [updateTunnel, findTunnel, hk, ih]

/-- Helper: after `n ≥ 1` attaches for one endpoint the stored `uint16`
channel index equals `n % 2 ^ 16`. -/
theorem attachState_channelIndex (ep : String) (q : Nat) :
    ∀ n, 1 ≤ n →
      (findTunnel (attachState ep q n).establishedTunnels ep).map
          EstablishedTunnel.channelIndex = some (n % 65536) := by
  intro n
  induction n with
  | zero => omega
  | succ m ih =>
      intro _
      by_cases hm : 1 ≤ m
      · have ihm := ih hm
        rcases hfind : findTunnel (attachState ep q m).establishedTunnels ep with _ | t
        · rw [hfind] at ihm
          exact absurd ihm (by simp)
        · rw [hfind] at ihm
          have hidx : t.channelIndex = m % 65536 := by simpa using ihm
          show (findTunnel (persistentDial (attachState ep q m) ep q).state.establishedTunnels
              ep).map EstablishedTunnel.channelIndex = some ((m + 1) % 65536)
          simp only [persistentDial, hfind, findTunnel_updateTunnel]
          simp only [Option.map_map, Option.map_some', Function.comp]
          simp only [Option.some.injEq]
          omega
      · have hm0 : m = 0 := by omega
        subst hm0
        show (findTunnel (persistentDial (attachState ep q 0) ep q).state.establishedTunnels
            ep).map EstablishedTunnel.channelIndex = some (1 % 65536)
        rw [show attachState ep q 0 = emptyState from rfl, persistentDial]
        simp [emptyState, findTunnel]

/-- Helper: the channel id handed out by the `n`-th attach (`n ≥ 1`) is
`n % 2 ^ 16`. -/
theorem channelIdAtAttach_eq (ep : String) (q : Nat) (n : Nat) (h : 1 ≤ n) :
    channelIdAtAttach ep q n = n % 65536 := by
  rcases n with _ | m
  · omega
  rcases m with _ | m
  · show (persistentDial (attachState ep q 0) ep q).channelId = 1 % 65536
    rw [show attachState ep q 0 = emptyState from rfl, persistentDial]
    simp [emptyState, findTunnel]
  · have hidxm := attachState_channelIndex ep q (m + 1) (by omega)
    rcases hfind : findTunnel (attachState ep q (m + 1)).establishedTunnels ep with _ | t
    · rw [hfind] at hidxm
      exact absurd hidxm (by simp)
    · rw [hfind] at hidxm
      have hidx : t.channelIndex = (m + 1) % 65536 := by simpa using hidxm
      show (persistentDial (attachState ep q (m + 2 - 1)) ep q).channelId = (m + 2) % 65536
      rw [show m + 2 - 1 = m + 1 from rfl]
      simp only [persistentDial, hfind]
      rw [hidx]
      omega

/-- Helper: in the writer trace every write call is immediately preceded by
a write-deadline update, whatever action came before the trace. -/
theorem writerActions_chain (w : WSTunnelConfig) (now : Nat) :
    ∀ (pkts : List UDPPacket) (prev : Option IOAction),
      chainCallPreceded isSetWriteDeadline isWriteCall prev (writerActions w now pkts) = true := by
  intro pkts
  induction pkts with
  | nil => intro prev; rfl
  | cons rt rest ih =>
      intro prev
      simp [writerActions, chainCallPreceded, isWriteCall, isSetWriteDeadline, ih]

/-- Helper: a trace consisting only of read calls contains no read-deadline
update. -/
theorem countP_mapReadMessage_setRead (msgs : List (List Nat)) :
    (msgs.map fun _ => IOAction.readMessage).countP isSetReadDeadline = 0 := by
  induction msgs with
  | nil => rfl
  | cons m rest ih =>
      simp only [List.map_cons, List.countP_cons, ih]
      simp [isSetReadDeadline]

/-- Helper: a trace consisting only of read calls contains one read call
per message. -/
theorem countP_mapReadMessage_read (msgs : List (List Nat)) :
    (msgs.map fun _ => IOAction.readMessage).countP isReadCall = msgs.length := by
  induction msgs with
  | nil => rfl
  | cons m rest ih =>
      simp only [List.map_cons, List.countP_cons, ih]
      simp [isReadCall]

end Transport

/-- C1: in the configuration `cfgChunksA`, whose `ChunksLengthBeforeSni` is
`(1, 3)` and whose `SniChunksLength` is `(50, 60)`, the chunk configuration
handed to the server carries `(50, 60)` — the SNI range — as its before-SNI
chunk range, and the output is unchanged when `ChunksLengthBeforeSni` is
replaced by `(7, 8)`: `RunServer` wires `SniChunksLength` into
`BeforeSniLength`, ignores `ChunksLengthBeforeSni` entirely, and hands the
server no SNI-region range at all, contradicting the claimed mapping of
each configured range to its own region. -/
theorem Core.claim1_chunkConfig_eval :
    runServerChunkConfig cfgChunksA =
      { beforeSniLength := (50, 60)
        afterSniLength := (10, 20)
        delay := (0, 5)
        tlsHeaderLength := 5 } ∧
    cfgChunksA.chunksLengthBeforeSni = (1, 3) ∧
    cfgChunksB.chunksLengthBeforeSni = (7, 8) ∧
    runServerChunkConfig cfgChunksA = runServerChunkConfig cfgChunksB := by
  refine ⟨rfl, rfl, rfl, rfl⟩

/-- C2: with `LinkIdleTimeout = 5` and a supervisor whose activity stamp was
fresh at startup (`initialGap = 0`), a connection that terminates after an
idle gap of 100 seconds — far beyond the timeout — does not make the
supervisor drop the endpoint entry and stop: the loop keeps redialling
(`stillRunning`), because the only idleness check sits before the first
dial and no statement inside the loop returns from the goroutine. -/
theorem Transport.claim2_idleCheck_eval :
    supervisorRun 5 0 [.session 100] = .stillRunning ∧
    supervisorRun 5 0 [.session 100, .dialFail, .session 200] = .stillRunning ∧
    ((100 : Int) > 5) := by
  refine ⟨rfl, rfl, by norm_num⟩

/-- C3: for every packet taken from the tunnel write queue whose channel id
fits in a `uint16`, the tunnel writer sets a write deadline of
`WriteTimeout` seconds past the current instant and emits exactly
`shortClientId ‖ uint16be(channelId) ‖ data`. -/
theorem Transport.claim3_writerFrame (w : WSTunnelConfig) (now : Nat) (rt : UDPPacket)
    (h : rt.channel < 65536) :
    writerStep w now rt =
      (now + w.writeTimeout, w.shortClientID ++ specUint16BE rt.channel ++ rt.data) := by
  simp [writerStep, writerEmit, goPutUint16_eq_spec rt.channel h]

/-- Witness for C3 at a concrete packet: channel id 258 on client id
`[99, 100]` yields deadline `1300` and the frame
`[99, 100] ‖ [1, 2] ‖ [7, 8]`. -/
theorem Transport.claim3_writerFrame_witness :
    (258 : Nat) < 65536 ∧
    writerStep { readTimeout := 300, writeTimeout := 300, linkIdleTimeout := 600,
                   shortClientID := [99, 100] } 1000 { channel := 258, data := [7, 8] } =
      (1300, [99, 100] ++ specUint16BE 258 ++ [7, 8]) ∧
    [99, 100] ++ specUint16BE 258 ++ [7, 8] = [99, 100, 1, 2, 7, 8] :=
  ⟨by decide,
   Transport.claim3_writerFrame
     { readTimeout := 300, writeTimeout := 300, linkIdleTimeout := 600,
       shortClientID := [99, 100] } 1000 { channel := 258, data := [7, 8] } (by decide),
   by decide⟩

/-- C4: for every inbound WebSocket message made of bytes, the tunnel
reader behaves exactly as the spec words it: messages shorter than 2 bytes
are ignored; otherwise the channel id is the big-endian `uint16` of the
first two bytes (`256 * b0 + b1`), the payload is the remaining bytes, the
packet is enqueued on the bind queue registered for that channel id when
one exists, and is dropped silently otherwise. -/
theorem Transport.claim4_readerDemux (binds : List (Nat × Nat)) (msg : List Nat)
    (h : ∀ b ∈ msg, b < 256) :
    readerStep binds msg = specReaderStep binds msg := by
  rcases msg with _ | ⟨b0, _ | ⟨b1, rest⟩⟩
  · rfl
  · rfl
  · have hb1 : b1 < 256 := h b1 (by simp)
    simp [readerStep, specReaderStep, goBigEndianUint16_eq_add b0 b1 hb1]

/-- Witness for C4 at a concrete message: bytes `[1, 2, 5, 6]` with bind
queue 9 registered for channel 258 are enqueued on queue 9 as channel 258
with payload `[5, 6]`; a 1-byte message is ignored. -/
theorem Transport.claim4_readerDemux_witness :
    (∀ b ∈ [1, 2, 5, 6], b < 256) ∧
    readerStep [(258, 9)] [1, 2, 5, 6] = specReaderStep [(258, 9)] [1, 2, 5, 6] ∧
    readerStep [(258, 9)] [1, 2, 5, 6] = .enqueued 9 { channel := 258, data := [5, 6] } ∧
    readerStep [(258, 9)] [1] = .ignored :=
  ⟨by decide, Transport.claim4_readerDemux [(258, 9)] [1, 2, 5, 6] (by decide),
   by decide, by decide⟩

/-- Counterexample to C5: the channel index is a `uint16`, so the 65536th
attach to one endpoint is handed channel id 0 — which the claim says is
never assigned — and the 65537th attach is handed the same id as the first
attach, so ids are reused. -/
theorem Transport.claim5_wraparound_counterexample :
    channelIdAtAttach "ws://worker" 7 65536 = 0 ∧
    channelIdAtAttach "ws://worker" 7 65537 = channelIdAtAttach "ws://worker" 7 1 := by
  have h1 := Transport.channelIdAtAttach_eq "ws://worker" 7 65536 (by omega)
  have h2 := Transport.channelIdAtAttach_eq "ws://worker" 7 65537 (by omega)
  have h3 := Transport.channelIdAtAttach_eq "ws://worker" 7 1 (by omega)
  refine ⟨?_, ?_⟩
  · rw [h1]
  · rw [h2, h3]

/-- C5 (amended): for every endpoint, channel ids are assigned monotonically
starting at 1 and incremented by one per attach, and they are pairwise
distinct, nonzero and unreused as long as at most 65535 attaches are made;
because the index is a `uint16`, the 65536th attach wraps around to id 0
and ids repeat with period 65536 from then on. -/
theorem Transport.claim5_amended (ep : String) (q j k : Nat)
    (h1 : 1 ≤ j) (h2 : j < k) (h3 : k ≤ 65535) :
    channelIdAtAttach ep q j = j ∧
    channelIdAtAttach ep q k = k ∧
    channelIdAtAttach ep q j ≠ channelIdAtAttach ep q k ∧
    channelIdAtAttach ep q j ≠ 0 := by
  have hj := Transport.channelIdAtAttach_eq ep q j h1
  have hk := Transport.channelIdAtAttach_eq ep q k (by omega)
  have hj2 : channelIdAtAttach ep q j = j := by rw [hj]; omega
  have hk2 : channelIdAtAttach ep q k = k := by rw [hk]; omega
  exact ⟨hj2, hk2, by omega, by omega⟩

/-- Witness for C5 (amended) at the first and third attach on one
endpoint: ids 1 and 3, distinct and nonzero. -/
theorem Transport.claim5_amended_witness :
    1 ≤ 1 ∧ (1 : Nat) < 3 ∧ 3 ≤ 65535 ∧
    (channelIdAtAttach "ws://worker" 9 1 = 1 ∧
     channelIdAtAttach "ws://worker" 9 3 = 3 ∧
     channelIdAtAttach "ws://worker" 9 1 ≠ channelIdAtAttach "ws://worker" 9 3 ∧
     channelIdAtAttach "ws://worker" 9 1 ≠ 0) :=
  ⟨by decide, by decide, by decide,
   Transport.claim5_amended "ws://worker" 9 1 3 (by decide) (by decide) (by decide)⟩

/-- Counterexample to C6: with the interrupt handler installed, the actions
on a signal are exactly a `ShutDown` call followed by `os.Exit(0)` — the
process exits with code 0, not with the claimed code 130. -/
theorem Core.claim6_exitCode_counterexample :
    (runServerSignalHandler true).map handlerExitCodes = some [0] ∧
    (0 : Nat) ≠ 130 := by
  refine ⟨rfl, by decide⟩

/-- C6 (amended): an interrupt handler is installed exactly when
`captureCTRLC` is set; it is notified of SIGINT and SIGTERM and, on a
signal, invokes `ShutDown` and then exits the process with exit code 0. -/
theorem Core.claim6_amended (b : Bool) :
    (runServerSignalHandler b).isSome = b ∧
    ∀ h, runServerSignalHandler b = some h →
      Signal.interrupt ∈ h.signals ∧ Signal.sigterm ∈ h.signals ∧
      h.onSignal = [.callShutDown, .exitProcess 0] := by
  cases b with
  | false => exact ⟨rfl, by intro h heq; cases heq⟩
  | true =>
      refine ⟨rfl, ?_⟩
      intro h heq
      have : h = { signals := [.interrupt, .sigterm]
                   onSignal := [.callShutDown, .exitProcess 0] } := by
        cases heq; rfl
      subst this
      refine ⟨by simp, by simp, rfl⟩

/-- Witness for C6 (amended) with the handler installed (`captureCTRLC`
true) at the concrete installed handler. -/
theorem Core.claim6_amended_witness :
    Signal.interrupt ∈
        (SignalHandler.mk [.interrupt, .sigterm] [.callShutDown, .exitProcess 0]).signals ∧
    Signal.sigterm ∈
        (SignalHandler.mk [.interrupt, .sigterm] [.callShutDown, .exitProcess 0]).signals ∧
    (SignalHandler.mk [.interrupt, .sigterm] [.callShutDown, .exitProcess 0]).onSignal =
      [.callShutDown, .exitProcess 0] :=
  (Core.claim6_amended true).2
    (SignalHandler.mk [.interrupt, .sigterm] [.callShutDown, .exitProcess 0]) rfl

/-- C7: calling `ShutDown` closes the SOCKS listener and every tunnel of
the established-tunnels registry (the delegated `socks5` shutdown is
modelled from the spec, its code not being under `src/`). -/
theorem Core.claim7_shutdown (s : ServerState) :
    (shutDown s).listenerOpen = false ∧
    ((shutDown s).tunnels.all fun p => p.2 == false) = true := by
  refine ⟨rfl, ?_⟩
  simp [shutDown, socks5ServerShutdown, List.all_map, Function.comp]

/-- Counterexample to C8: in the configuration `cfgWorkerDNSOnly` the
DNS-fragmentation flag is off, yet the DoH client is constructed with
ClientHello fragmentation enabled, because `RunServer` also enables it when
`WorkerEnabled` and `WorkerDNSOnly` are both set. -/
theorem Core.claim8_fragFlag_counterexample :
    cfgWorkerDNSOnly.enableDNSFragmentation = false ∧
    runServerDoHFragmentation cfgWorkerDNSOnly = some true := by
  refine ⟨rfl, by decide⟩

/-- C8 (amended): whenever a DoH client is constructed (the resolver
address is an `https://` URL), its ClientHello fragmentation is enabled iff
either the DNS-fragmentation flag is on or both `WorkerEnabled` and
`WorkerDNSOnly` are on; in particular the flag being on always yields a
fragmenting client. -/
theorem Core.claim8_amended (c : Config) (h : remoteDNSAddrIsHTTPS c = true) :
    runServerDoHFragmentation c =
      some ((c.workerEnabled && c.workerDNSOnly) || c.enableDNSFragmentation) ∧
    (c.enableDNSFragmentation = true → runServerDoHFragmentation c = some true) := by
  constructor
  · simp [runServerDoHFragmentation, h, dohFragmentationFlag]
  · intro he
    simp [runServerDoHFragmentation, h, dohFragmentationFlag, he]

/-- Witness for C8 (amended) at the configuration `cfgDNSFrag`, whose
resolver address is an `https://` URL and whose DNS-fragmentation flag is
on: the constructed client fragments. -/
theorem Core.claim8_amended_witness :
    remoteDNSAddrIsHTTPS cfgDNSFrag = true ∧
    cfgDNSFrag.enableDNSFragmentation = true ∧
    runServerDoHFragmentation cfgDNSFrag = some true :=
  ⟨by decide, rfl, (Core.claim8_amended cfgDNSFrag (by decide)).2 rfl⟩

/-- Counterexample to C9: over a connection on which two messages arrive,
the reader trace sets the read deadline once before the read loop, so the
second read is not preceded by a read-deadline update — per-read deadlines
are not applied. -/
theorem Transport.claim9_readDeadline_counterexample :
    readerActions { readTimeout := 300, writeTimeout := 300, linkIdleTimeout := 600,
                      shortClientID := [99] } 0 [[0, 1, 7], [0, 1, 8]] =
      [.setReadDeadline 300, .readMessage, .readMessage] ∧
    eachCallPreceded isSetReadDeadline isReadCall
      (readerActions { readTimeout := 300, writeTimeout := 300, linkIdleTimeout := 600,
                         shortClientID := [99] } 0 [[0, 1, 7], [0, 1, 8]]) = false := by
  refine ⟨rfl, by decide⟩

/-- C9 (amended): every write on the tunnel WebSocket is preceded by
setting a write deadline of `WriteTimeout` seconds — one deadline update
per written packet — while the read deadline of `ReadTimeout` seconds is
set exactly once per connection, before the read loop, not before each
individual read. -/
theorem Transport.claim9_amended (w : WSTunnelConfig) (now : Nat)
    (pkts : List UDPPacket) (msgs : List (List Nat)) :
    eachCallPreceded isSetWriteDeadline isWriteCall (writerActions w now pkts) = true ∧
    (writerActions w now pkts).countP isSetWriteDeadline = pkts.length ∧
    (readerActions w now msgs).countP isSetReadDeadline = 1 ∧
    (readerActions w now msgs).countP isReadCall = msgs.length := by
  refine ⟨writerActions_chain w now pkts none, ?_, ?_, ?_⟩
  · induction pkts with
    | nil => rfl
    | cons rt rest ih =>
        simp only [writerActions, List.countP_cons, ih, List.length_cons]
        simp [isSetWriteDeadline]
  · simp only [readerActions, List.countP_cons, countP_mapReadMessage_setRead]
    simp [isSetReadDeadline]
  · simp only [readerActions, List.countP_cons, countP_mapReadMessage_read]
    simp [isReadCall]

/-- C10: `PersistentDial` never returns a non-nil error — every call yields
a tunnel write queue and a channel id — and the first attach to a
previously absent endpoint always returns channel id 1. -/
theorem Transport.claim10_persistentDial (w : WSTunnelState) (ep : String) (q : Nat) :
    (persistentDial w ep q).err = none ∧
    (findTunnel w.establishedTunnels ep = none → (persistentDial w ep q).channelId = 1) := by
  cases h : findTunnel w.establishedTunnels ep <;> simp [persistentDial, h]

/-- Witness for C10 at the empty registry: the first attach returns no
error and channel id 1. -/
theorem Transport.claim10_persistentDial_witness :
    (persistentDial emptyState "ws://worker" 7).err = none ∧
    (persistentDial emptyState "ws://worker" 7).channelId = 1 :=
  ⟨(Transport.claim10_persistentDial emptyState "ws://worker" 7).1,
   (Transport.claim10_persistentDial emptyState "ws://worker" 7).2 rfl⟩
